import Mathlib

/-
  Verification of the pagination/filtering/refresh controller of the
  tech-news single-page client (src/frontend/src/App.js).

  The controller is shallowly embedded: React state is an explicit
  AppState record, every handler is a pure state transformer, and each
  asynchronous backend call is represented by an explicit response
  argument (some r = the request resolved with payload r, none = the
  request rejected).  The query object sent to GET /articles is
  represented with Option fields, where none models a key deleted by the
  `Remove undefined parameters` loop in the source.
-/

namespace TechNews

/-- Article JSON shape consumed by the client (App.js card rendering). -/
structure Article where
  id : Nat
  title : String
  summary : String
  source_name : String
  source_color : String
  published_date : String
  url : String
  image_url : Option String
  tags : List String
deriving Repr, DecidableEq

/-- Source reference entry returned by GET /sources. -/
structure NewsSource where
  key : String
  name : String
  color : String
  article_count : Nat
deriving Repr, DecidableEq

/-- Stats payload returned by GET /stats. -/
structure Stats where
  total_articles : Nat
  recent_articles_24h : Nat
deriving Repr, DecidableEq

/-- Payload of a resolved GET /articles call: `{ articles: [...], total }`. -/
structure ArticlesResponse where
  articles : List Article
  total : Nat
deriving Repr, DecidableEq

/-- The React component state: one field per useState hook in App.js
(lines 15-25), in source order. -/
structure AppState where
  articles : List Article
  loading : Bool
  refreshing : Bool
  searchTerm : String
  selectedSource : String
  selectedHours : String
  sources : List NewsSource
  stats : Option Stats
  page : Nat
  totalArticles : Nat
  hasMore : Bool
deriving Repr, DecidableEq

/-- Initial state from the useState defaults in App.js lines 15-25. -/
def initialState : AppState :=
  { articles := []
    loading := true
    refreshing := false
    searchTerm := ""
    selectedSource := "all"
    selectedHours := "24"
    sources := []
    stats := none
    page := 1
    totalArticles := 0
    hasMore := true }

/-- Decimal value of a digit sequence, most significant first. -/
def digitsVal (l : List Char) : Nat :=
  l.foldl (fun acc c => acc * 10 + (c.toNat - 48)) 0

/-- JS parseInt on the recency strings used by the UI: the value of the
longest digit prefix.  The select constrains selectedHours to
1, 6, 24, 72, 168 or all, so the NaN branch of parseInt never
arises; a string with no digit prefix is mapped to 0 here. -/
def jsParseIntNat (s : String) : Nat :=
  digitsVal (s.data.takeWhile Char.isDigit)

/-- Query object for GET /articles after the undefined-key removal loop
(App.js lines 55-64): none models an omitted key. -/
structure ArticlesParams where
  page : Nat
  per_page : Nat
  hours : Option Nat
  source : Option String
  search : Option String
deriving Repr, DecidableEq

/-- The params object built by fetchArticles (App.js lines 55-64).
hours is undefined when selectedHours is all, source undefined
when selectedSource is all, and search is undefined when searchTerm is
the empty string (the only falsy string); undefined keys are deleted. -/
def fetchArticlesParams ( is_new_search : Bool) (s : AppState) : ArticlesParams :=
  { page := if is_new_search then 1 else s.page
    per_page := 20
    hours := if s.selectedHours = "all" then none else some (jsParseIntNat s.selectedHours)
    source := if s.selectedSource = "all" then none else some s.selectedSource
    search := if s.searchTerm = "" then none else some s.searchTerm }

/-- State mutations performed by fetchArticles before its await resolves
(App.js lines 50-53): on a new search, loading is set and page reset. -/
def fetchArticlesPre ( is_new_search : Bool) (s : AppState) : AppState :=
  if is_new_search then { s with loading := true, page := 1 } else s

/-- The whole fetchArticles call (App.js lines 48-81).  resp = some r
models the axios promise resolving with r; resp = none models it
rejecting, in which case only the console log and setLoading(false) of
the catch block run. -/
def fetchArticles ( is_new_search : Bool) (resp : Option ArticlesResponse)
    (s : AppState) : AppState :=
  let s1 := fetchArticlesPre is_new_search s
  match resp with
  | some r =>
      { s1 with
        articles := if is_new_search then r.articles else s1.articles ++ r.articles
        totalArticles := r.total
        hasMore := r.articles.length == 20
        loading := false }
  | none => { s1 with loading := false }

/-- fetchStats (App.js lines 38-45): store the payload on success,
log-only on failure. -/
def fetchStats (resp : Option Stats) (s : AppState) : AppState :=
  match resp with
  | some st => { s with stats := some st }
  | none => s

/-- fetchSources (App.js lines 28-35): store the list on success,
log-only on failure. -/
def fetchSources (resp : Option (List NewsSource)) (s : AppState) : AppState :=
  match resp with
  | some l => { s with sources := l }
  | none => s

/-- loadMore (App.js lines 97-101): increment page only when hasMore
and not loading; otherwise do nothing at all. -/
def loadMore (s : AppState) : AppState :=
  if s.hasMore && !s.loading then { s with page := s.page + 1 } else s

/-- loadMore followed by the page-change useEffect (App.js lines
139-143): when the click changed page, the effect fires with the new
page and, since page is greater than 1, runs an append fetch whose
request is built from the updated state.  Returns the final state and
the request that went out (none when no fetch was issued). -/
def loadMoreFlow (resp : Option ArticlesResponse) (s : AppState) :
    AppState × Option ArticlesParams :=
  if s.hasMore && !s.loading then
    let s1 := { s with page := s.page + 1 }
    if 1 < s1.page then
      (fetchArticles false resp s1, some (fetchArticlesParams false s1))
    else (s1, none)
  else (s, none)

/-- handleSearch (App.js lines 104-107): a submitted search always runs
fetchArticles(true), with no guard. -/
def handleSearch (resp : Option ArticlesResponse) (s : AppState) : AppState :=
  fetchArticles true resp s

/-- setSelectedSource followed by the filter-change useEffect (App.js
lines 132-136): the effect runs fetchArticles(true) only when loading
is false at the time of the change. -/
def selectSourceFlow (v : String) (resp : Option ArticlesResponse)
    (s : AppState) : AppState :=
  let s1 := { s with selectedSource := v }
  if !s1.loading then fetchArticles true resp s1 else s1

/-- setSelectedHours followed by the filter-change useEffect (App.js
lines 132-136), with the same not-loading guard. -/
def selectHoursFlow (v : String) (resp : Option ArticlesResponse)
    (s : AppState) : AppState :=
  let s1 := { s with selectedHours := v }
  if !s1.loading then fetchArticles true resp s1 else s1

/-- Backend calls issued by handleRefresh, in program order. -/
inductive RefreshEvent where
  | postRefresh : RefreshEvent
  | articlesFetch : ArticlesParams → RefreshEvent
  | statsFetch : RefreshEvent
deriving Repr, DecidableEq

/-- Inputs to one handleRefresh run: whether POST /refresh resolved, and
the payloads (or rejections) of the follow-up calls. -/
structure RefreshInputs where
  refreshOk : Bool
  articlesResp : Option ArticlesResponse
  statsResp : Option Stats
deriving Repr

/-- handleRefresh (App.js lines 84-94): set refreshing, POST /refresh,
then fetchArticles(true) and fetchStats (both of which catch their own
errors), and clear refreshing after the try/catch in every case.  When
the POST rejects, the catch skips the two follow-up calls.  Returns the
final state and the backend calls issued, in order. -/
def handleRefresh (inp : RefreshInputs) (s : AppState) :
    AppState × List RefreshEvent :=
  let s1 := { s with refreshing := true }
  if inp.refreshOk then
    let p := fetchArticlesParams true s1
    let s2 := fetchArticles true inp.articlesResp s1
    let s3 := fetchStats inp.statsResp s2
    ({ s3 with refreshing := false },
     [RefreshEvent.postRefresh, RefreshEvent.articlesFetch p, RefreshEvent.statsFetch])
  else
    ({ s1 with refreshing := false }, [RefreshEvent.postRefresh])

/-- The states the component is in at each await point inside
handleRefresh, i.e. while the manual refresh is outstanding. -/
def handleRefreshTrace (inp : RefreshInputs) (s : AppState) : List AppState :=
  let s1 := { s with refreshing := true }
  if inp.refreshOk then
    let s2 := fetchArticles true inp.articlesResp s1
    [s1, s2, fetchStats inp.statsResp s2]
  else [s1]

/-- The refresh Button is rendered with disabled={refreshing}
(App.js line 191). -/
def refreshButtonDisabled (s : AppState) : Bool :=
  s.refreshing

/-- One tick of the 5-minute interval (App.js lines 147-152): refresh
stats unconditionally, and replace-fetch page 1 only when the page the
effect closed over is 1.  Because the effect re-subscribes whenever
page changes, the captured page always equals the current page. -/
def timerTick (statsResp : Option Stats) (articlesResp : Option ArticlesResponse)
    (s : AppState) : AppState :=
  let s1 := fetchStats statsResp s
  if s.page = 1 then fetchArticles true articlesResp s1 else s1

/-- Dependency array of the interval useEffect (App.js line 155): the
effect depends on page. -/
def intervalEffectDeps (s : AppState) : List Nat :=
  [s.page]

/-- React semantics of the dependency array: on a re-render the effect
cleanup (clearInterval) and re-subscription (setInterval) run exactly
when the dependencies changed.  So the interval is torn down and
restarted whenever page changes between renders. -/
def intervalRestartsOn (sOld sNew : AppState) : Bool :=
  intervalEffectDeps sOld != intervalEffectDeps sNew

/-- Millisecond period of the polling interval (App.js line 152). -/
def pollIntervalMs : Nat :=
  5 * 60 * 1000

/-! Concrete fixtures used by counterexamples and witnesses. -/

/-- A sample article with identifier n. -/
def sampleArticle (n : Nat) : Article :=
  { id := n
    title := "Title"
    summary := "Summary"
    source_name := "TechCrunch"
    source_color := "#00ff00"
    published_date := "2025-01-01T00:00:00Z"
    url := "https://example.com/a"
    image_url := none
    tags := ["ai"] }

/-- A backend page of k distinct sample articles with total 57. -/
def samplePage (k : Nat) : ArticlesResponse :=
  { articles := (List.range k).map sampleArticle, total := 57 }

/-- Sample stats payload. -/
def sampleStats : Stats :=
  { total_articles := 57, recent_articles_24h := 12 }

/-- The state after the initial load finished: no fetch in flight. -/
def sIdle : AppState :=
  { initialState with loading := false }

/-- An idle state displaying a full first page of 20 articles. -/
def sLoaded : AppState :=
  { initialState with
    loading := false
    articles := (samplePage 20).articles
    totalArticles := 57 }

/-- A state on page 3 with a fetch in flight. -/
def sBusyPage3 : AppState :=
  { initialState with loading := true, page := 3, articles := [sampleArticle 0] }

/-- An idle state on the last page: no more pages available. -/
def sNoMore : AppState :=
  { initialState with loading := false, hasMore := false }

/-- An idle state with every filter away from its sentinel. -/
def sFiltered : AppState :=
  { initialState with
    loading := false
    searchTerm := "rust"
    selectedSource := "techcrunch"
    selectedHours := "72" }

/-- A state whose search text is whitespace only. -/
def sBlanks : AppState :=
  { initialState with searchTerm := "   " }

/-! Helper lemmas shared by the claim proofs. -/

/-- Lemma: fetchArticles never touches the refreshing flag. -/
theorem fetchArticles_refreshing ( is_new_search : Bool)
    (resp : Option ArticlesResponse) (s : AppState) :
    (fetchArticles is_new_search resp s).refreshing = s.refreshing := by
  cases resp <;> cases is_new_search <;>
    simp [fetchArticles, fetchArticlesPre]

/-- Lemma: fetchArticles never touches the stats field. -/
theorem fetchArticles_stats ( is_new_search : Bool)
    (resp : Option ArticlesResponse) (s : AppState) :
    (fetchArticles is_new_search resp s).stats = s.stats := by
  cases resp <;> cases is_new_search <;>
    simp [fetchArticles, fetchArticlesPre]

/-- Lemma: fetchStats never touches the refreshing flag. -/
theorem fetchStats_refreshing (resp : Option Stats) (s : AppState) :
    (fetchStats resp s).refreshing = s.refreshing := by
  cases resp <;> simp [fetchStats]

/-- Claim C2: after every successful articles fetch, replace or append,
the more-pages flag equals the test whether the returned page holds
exactly 20 articles: strictly fewer than 20 sets it false, exactly 20
sets it true. -/
theorem C2_hasMore_iff_full_page ( is_new_search : Bool)
    (r : ArticlesResponse) (s : AppState) :
    (fetchArticles is_new_search (some r) s).hasMore
        = (r.articles.length == 20) ∧
    ((fetchArticles is_new_search (some r) s).hasMore = true ↔
      r.articles.length = 20) := by
  cases is_new_search <;> simp [fetchArticles, fetchArticlesPre]

/-- Claim C4: load more leaves the state unchanged and issues no request
when the more-pages flag is false or a fetch is in flight, and
increments the page exactly when the flag is true and loading is
false. -/
theorem C4_load_more_guard (resp : Option ArticlesResponse) (s : AppState) :
    ((s.hasMore = false ∨ s.loading = true) →
      loadMore s = s ∧ loadMoreFlow resp s = (s, none)) ∧
    (s.hasMore = true → s.loading = false →
      loadMore s = { s with page := s.page + 1 }) := by
  constructor
  · rintro (h | h) <;> simp [loadMore, loadMoreFlow, h]
  · intro hm hl
    simp [loadMore, hm, hl]

/-- Witness for C4: on the last page with no fetch in flight, clicking
load more changes nothing and sends nothing. -/
theorem C4_load_more_guard_witness :
    loadMore sNoMore = sNoMore ∧ loadMoreFlow none sNoMore = (sNoMore, none) :=
  (C4_load_more_guard none sNoMore).1 (Or.inl rfl)

/-- Claim C5: a rejected articles fetch clears the loading indicator and
leaves the displayed list, the total count and the more-pages flag
exactly as before the call; the state carries no error field, so
nothing beyond the console log is surfaced. -/
theorem C5_fetch_failure_preserves ( is_new_search : Bool) (s : AppState) :
    (fetchArticles is_new_search none s).loading = false ∧
    (fetchArticles is_new_search none s).articles = s.articles ∧
    (fetchArticles is_new_search none s).totalArticles = s.totalArticles ∧
    (fetchArticles is_new_search none s).hasMore = s.hasMore := by
  cases is_new_search <;> simp [fetchArticles, fetchArticlesPre]

/-- Claim C8: every articles query carries page and per_page fixed at
20; hours is omitted exactly when the recency selection is the all
sentinel and otherwise holds the parsed recency value; source is
omitted exactly when the source selection is the all sentinel and
otherwise holds the selected key; search is omitted exactly when the
search text is empty and otherwise holds it. -/
theorem C8_params_shape ( is_new_search : Bool) (s : AppState) :
    (fetchArticlesParams is_new_search s).per_page = 20 ∧
    (fetchArticlesParams is_new_search s).page
        = (if is_new_search then 1 else s.page) ∧
    ((fetchArticlesParams is_new_search s).hours = none ↔
      s.selectedHours = "all") ∧
    (s.selectedHours ≠ "all" →
      (fetchArticlesParams is_new_search s).hours
        = some (jsParseIntNat s.selectedHours)) ∧
    ((fetchArticlesParams is_new_search s).source = none ↔
      s.selectedSource = "all") ∧
    (s.selectedSource ≠ "all" →
      (fetchArticlesParams is_new_search s).source = some s.selectedSource) ∧
    ((fetchArticlesParams is_new_search s).search = none ↔
      s.searchTerm = "") ∧
    (s.searchTerm ≠ "" →
      (fetchArticlesParams is_new_search s).search = some s.searchTerm) := by
  simp only [fetchArticlesParams]
  refine ⟨trivial, trivial, ?_, ?_, ?_, ?_, ?_, ?_⟩ <;> split <;> simp_all

/-- Witness for C8: with search rust, source techcrunch and recency 72,
the query carries all three fields with those values. -/
theorem C8_params_shape_witness :
    (fetchArticlesParams true sFiltered).hours = some 72 ∧
    (fetchArticlesParams true sFiltered).source = some "techcrunch" ∧
    (fetchArticlesParams true sFiltered).search = some "rust" := by
  have h := C8_params_shape true sFiltered
  exact ⟨(h.2.2.2.1 (by decide)).trans (by decide),
    h.2.2.2.2.2.1 (by decide), h.2.2.2.2.2.2.2 (by decide)⟩

/-- Claim C9: a replace-fetch resets the page to 1 before its request
resolves, so after a failing replace-fetch the page is already 1 while
the displayed list, the total count and the more-pages flag keep their
prior values. -/
theorem C9_replace_fetch_resets_page_early (s : AppState) :
    (fetchArticlesPre true s).page = 1 ∧
    (fetchArticles true none s).page = 1 ∧
    (fetchArticles true none s).articles = s.articles ∧
    (fetchArticles true none s).totalArticles = s.totalArticles ∧
    (fetchArticles true none s).hasMore = s.hasMore := by
  simp [fetchArticles, fetchArticlesPre]

/-- Claim C10: the search key is omitted exactly when the search text is
the empty string; any other string, a whitespace-only one included, is
sent verbatim with no trimming or normalisation. -/
theorem C10_search_sent_verbatim ( is_new_search : Bool) (s : AppState) :
    ((fetchArticlesParams is_new_search s).search = none ↔
      s.searchTerm = "") ∧
    (s.searchTerm ≠ "" →
      (fetchArticlesParams is_new_search s).search = some s.searchTerm) := by
  simp only [fetchArticlesParams]
  constructor
  · split <;> simp_all
  · intro h
    simp [h]

/-- Witness for C10: a search text of three spaces is sent verbatim. -/
theorem C10_search_sent_verbatim_witness :
    (fetchArticlesParams true sBlanks).search = some "   " :=
  (C10_search_sent_verbatim true sBlanks).2 (by decide)

/-- Counterexample to claim C1 as stated: the filter-change effect is
guarded by a not-loading test, so a source change made while a fetch is
in flight (state sBusyPage3, page 3, loading true) issues no fetch at
all: the page stays 3 instead of being reset to 1 and the displayed
list is not replaced by the returned page. -/
theorem C1_source_change_while_loading_counterexample :
    (selectSourceFlow "techcrunch" (some (samplePage 20)) sBusyPage3).page = 3 ∧
    (selectSourceFlow "techcrunch" (some (samplePage 20)) sBusyPage3).articles
        = [sampleArticle 0] := by
  constructor <;> rfl

/-- Claim C1 (amended): a submitted search always issues a replace-fetch
resetting page to 1 and, on success, wholly replacing the displayed
list; a change of the selected source or recency window does the same
exactly when no fetch is in flight (loading false), while a change made
during a fetch only records the new filter value, with no fetch, no
page reset and no list change. -/
theorem C1_filter_change_replaces (v : String) (r : ArticlesResponse)
    (s : AppState) :
    ((handleSearch (some r) s).page = 1 ∧
      (handleSearch (some r) s).articles = r.articles) ∧
    (s.loading = false →
      (selectSourceFlow v (some r) s).page = 1 ∧
      (selectSourceFlow v (some r) s).articles = r.articles ∧
      (selectHoursFlow v (some r) s).page = 1 ∧
      (selectHoursFlow v (some r) s).articles = r.articles) ∧
    (s.loading = true →
      selectSourceFlow v (some r) s = { s with selectedSource := v } ∧
      selectHoursFlow v (some r) s = { s with selectedHours := v }) := by
  refine ⟨⟨rfl, rfl⟩, ?_, ?_⟩ <;> intro h <;>
    simp [selectSourceFlow, selectHoursFlow, fetchArticles,
      fetchArticlesPre, handleSearch, h]

/-- Witness for C1: from the idle state, a source change with a
successful response resets page to 1 and replaces the list with the
returned page. -/
theorem C1_filter_change_replaces_witness :
    (selectSourceFlow "techcrunch" (some (samplePage 5)) sIdle).page = 1 ∧
    (selectSourceFlow "techcrunch" (some (samplePage 5)) sIdle).articles
        = (samplePage 5).articles :=
  ⟨((C1_filter_change_replaces "techcrunch" (samplePage 5) sIdle).2.1 rfl).1,
   ((C1_filter_change_replaces "techcrunch" (samplePage 5) sIdle).2.1 rfl).2.1⟩

/-- Claim C3: with more pages available and no fetch in flight, load
more increments the page by one, the outgoing request carries the
incremented page number, and on success the returned articles are
concatenated to the end of the existing list; 20 displayed plus 20
returned gives 40. -/
theorem C3_load_more_appends (r : ArticlesResponse) (s : AppState)
    (hm : s.hasMore = true) (hl : s.loading = false) (hp : 1 ≤ s.page) :
    (loadMoreFlow (some r) s).1.page = s.page + 1 ∧
    (∃ p, (loadMoreFlow (some r) s).2 = some p ∧ p.page = s.page + 1) ∧
    (loadMoreFlow (some r) s).1.articles = s.articles ++ r.articles ∧
    (s.articles.length = 20 → r.articles.length = 20 →
      (loadMoreFlow (some r) s).1.articles.length = 40) := by
  have hgt : 1 < s.page + 1 := Nat.lt_succ_of_le hp
  refine ⟨?_, ?_, ?_, ?_⟩ <;>
    simp [loadMoreFlow, hm, hl, hgt, fetchArticles, fetchArticlesPre,
      fetchArticlesParams]
  intro h1 h2
  omega

/-- Witness for C3: from a full first page of 20, load more with a
successful page of 20 yields page 2 and a displayed list of 40. -/
theorem C3_load_more_appends_witness :
    (loadMoreFlow (some (samplePage 20)) sLoaded).1.page = 2 ∧
    (loadMoreFlow (some (samplePage 20)) sLoaded).1.articles.length = 40 := by
  have h := C3_load_more_appends (samplePage 20) sLoaded rfl rfl
    (Nat.le_refl 1)
  exact ⟨h.1, h.2.2.2 (by simp [sLoaded, samplePage]) (by simp [samplePage])⟩

/-- Claim C6: a manual refresh issues, in order, POST /refresh, then a
replace-fetch whose request is for page 1, then a stats fetch (the two
follow-up calls are skipped when the POST rejects); the refreshing flag
holds at every await point of the run and is cleared in the final state
whether the steps succeeded or failed; the refresh button is disabled
exactly when the flag is set. -/
theorem C6_manual_refresh (inp : RefreshInputs) (s : AppState) :
    (inp.refreshOk = true →
      ∃ p, (handleRefresh inp s).2
          = [RefreshEvent.postRefresh, RefreshEvent.articlesFetch p,
             RefreshEvent.statsFetch] ∧
        p.page = 1) ∧
    (inp.refreshOk = false →
      (handleRefresh inp s).2 = [RefreshEvent.postRefresh]) ∧
    (handleRefresh inp s).1.refreshing = false ∧
    ((handleRefreshTrace inp s).all fun t => t.refreshing) = true ∧
    refreshButtonDisabled s = s.refreshing := by
  obtain ⟨ok, ar, st⟩ := inp
  cases ok
  · refine ⟨by simp, fun _ => rfl, rfl, ?_, rfl⟩
    simp [handleRefreshTrace]
  · refine ⟨fun _ => ⟨_, rfl, rfl⟩, by simp, rfl, ?_, rfl⟩
    simp [handleRefreshTrace, List.all, fetchArticles_refreshing,
      fetchStats_refreshing]

/-- Witness for C6: with the POST resolving and a successful page, the
events of the run are exactly the three calls in order, with the
articles request for page 1. -/
theorem C6_manual_refresh_witness :
    ∃ p, (handleRefresh
        { refreshOk := true, articlesResp := some (samplePage 20),
          statsResp := some sampleStats } sIdle).2
      = [RefreshEvent.postRefresh, RefreshEvent.articlesFetch p,
         RefreshEvent.statsFetch] ∧ p.page = 1 :=
  (C6_manual_refresh
    { refreshOk := true, articlesResp := some (samplePage 20),
      statsResp := some sampleStats } sIdle).1 rfl

/-- Counterexample to claim C7 as stated: the interval useEffect lists
the page in its dependency array, so a re-render in which the page
moved from 1 to 2 tears the interval down and installs a new one; the
timer is not a single process-lifetime interval started once after
mount. -/
theorem C7_interval_restart_counterexample :
    intervalRestartsOn initialState { initialState with page := 2 } = true := by
  decide

/-- Claim C7 (amended): the polling interval is torn down and
re-created exactly when the page changes between renders (and cancelled
on unmount); each 5-minute tick refreshes stats unconditionally, and
additionally issues a replace-fetch of page 1 exactly when the current
page is 1, leaving the list and page untouched otherwise. -/
theorem C7_interval_spec (sOld sNew s : AppState) (st : Stats)
    (r : ArticlesResponse) :
    pollIntervalMs = 5 * 60 * 1000 ∧
    (intervalRestartsOn sOld sNew = true ↔ sOld.page ≠ sNew.page) ∧
    (timerTick (some st) (some r) s).stats = some st ∧
    (s.page = 1 →
      (timerTick (some st) (some r) s).articles = r.articles ∧
      (timerTick (some st) (some r) s).page = 1) ∧
    (s.page ≠ 1 →
      (timerTick (some st) (some r) s).articles = s.articles ∧
      (timerTick (some st) (some r) s).page = s.page) := by
  refine ⟨rfl, ?_, ?_, ?_, ?_⟩
  · simp [intervalRestartsOn, intervalEffectDeps]
  · by_cases h : s.page = 1 <;>
      simp [timerTick, fetchStats, h, fetchArticles_stats]
  · intro h
    simp [timerTick, fetchStats, h, fetchArticles, fetchArticlesPre]
  · intro h
    simp [timerTick, fetchStats, h]

/-- Witness for C7: a tick on page 1 replaces the list with the fetched
page and stores the fetched stats. -/
theorem C7_interval_spec_witness :
    (timerTick (some sampleStats) (some (samplePage 5)) sIdle).articles
        = (samplePage 5).articles ∧
    (timerTick (some sampleStats) (some (samplePage 5)) sIdle).stats
        = some sampleStats :=
  ⟨((C7_interval_spec initialState initialState sIdle sampleStats
      (samplePage 5)).2.2.2.1 rfl).1,
   (C7_interval_spec initialState initialState sIdle sampleStats
      (samplePage 5)).2.2.1⟩

end TechNews
